import Mathlib

/-!
Verification of the `do`-intervention messenger of the pyro repository
(`src/pyro/poutine/do_messenger.py`) over a shallow embedding.

Modelling conventions:
* A torch tensor is abstracted by its element contents, a `List ℚ`
  (floating point is out of scope; values are exact rationals).
  `torch.tensor(float(n))` for a plain number `n` becomes the
  single-element list `[n]`.
* A `Distribution` is either an opaque primitive distribution carrying
  its `event_shape`, or the degenerate point mass `Delta(v, event_dim)`.
* A Pyro message dict is the record `Message`; the in-place mutation of
  `_pyro_sample` becomes a function from the entry message to the exit
  message.  A raised `NotImplementedError` is an `Except.error` that
  carries the state of the (in-place mutated) message at the moment the
  exception propagates, so that the caller-visible mutations are part of
  the model.
* The `warnings.warn` call is modelled by the `warned` flag of the
  hook's result.
-/

namespace Pyro

/-- A distribution object: either an opaque primitive distribution with a
given `event_shape` (e.g. `Normal(x, s)`), or pyro's `Delta(v, event_dim)`
point mass. -/
inductive Dist where
  | prim (dname : String) (es : List ℕ)
  | delta (v : List ℚ) (event_dim : ℕ)
deriving DecidableEq

/-- `event_shape` of a distribution.  For a primitive distribution it is
the stored shape; for `Delta(v, event_dim)` over a flat value tensor the
event shape is `[]` when `event_dim = 0` and `[v.length]` when the whole
one-dimensional value is the event. -/
def Dist.event_shape : Dist → List ℕ
  | .prim _ es => es
  | .delta v ed => if ed = 0 then [] else [v.length]

/-- `pyro.distributions.Delta(v, event_dim)`. -/
def Delta (v : List ℚ) (event_dim : ℕ) : Dist := Dist.delta v event_dim

/-- The message dict of one sample site, with the fields
`_pyro_sample` reads or writes: `name`, `fn` (the distribution),
`value`, `is_observed`, `done`, and the scratch field `_intervener_id`
(absent = `Option.none`). -/
structure Message where
  name : String
  fn : Dist
  value : Option (List ℚ)
  is_observed : Bool
  done : Bool
  intervener_id : Option String
deriving DecidableEq

/-- The runtime type of an intervention value stored in the `data` dict:
Python `None`, a `Distribution`, a `numbers.Number`, a `torch.Tensor`,
or anything else (e.g. a string), remembered by its type name. -/
inductive Interv where
  | null
  | dist (d : Dist)
  | num (n : ℚ)
  | tensor (t : List ℚ)
  | unsupported (tyname : String)
deriving DecidableEq

/-- `v` is one of the four supported intervention types
{None, Distribution, Number, Tensor}. -/
def Interv.supported : Interv → Bool
  | .unsupported _ => false
  | _ => true

/-- Python dict lookup `data[k]` / `k in data`, absent key = `Option.none`. -/
def dict_get : List (String × Interv) → String → Option Interv
  | [], _ => Option.none
  | (k, v) :: rest, n => if k = n then some v else dict_get rest n

/-- The `DoMessenger` instance state: the intervention mapping `data` and
the per-instance identity token `_intervener_id = str(id(self))`. -/
structure DoMessenger where
  data : List (String × Interv)
  intervener_id : String
deriving DecidableEq

/-- Result of one `_pyro_sample` call that returned normally:
the (mutated) original message, the shallow copy handed to
`apply_stack` if the site was intervened on (`new_msg = msg.copy()`),
and whether `warnings.warn` fired. -/
structure HookOut where
  msg : Message
  fork : Option Message
  warned : Bool
deriving DecidableEq

/-- A raised `NotImplementedError`: the offending type name together with
the caller-visible state at the raise (the in-place mutated message, the
already-executed fork, the warning flag). -/
structure HookErr where
  tyname : String
  state : HookOut
deriving DecidableEq

/-- `DoMessenger._pyro_sample(self, msg)`, translated statement by
statement from `src/pyro/poutine/do_messenger.py`.

The source guard is the single conjunction
`msg.get('_intervener_id', None) != self._intervener_id and
 msg['name'] in self.data`; here it is split into a dict lookup followed
by the identity test, which enters the intervention branch under exactly
the same condition.  In the source, `intervention = self.data[msg['name']]`
is read before the rename, and the `intervention is None` case falls into
the `isinstance(intervention, Distribution)` branch with
`intervention = msg['fn']` (the still-unchanged original distribution),
which is spelled out as the `.null` case below.  The `Delta` in the
number/tensor branch uses `len(msg['fn'].event_shape)` while `msg['fn']`
is still the original distribution. -/
def pyro_sample (self : DoMessenger) (msg : Message) : Except HookErr HookOut :=
  match dict_get self.data msg.name with
  | Option.none => Except.ok ⟨msg, Option.none, false⟩
  | some intervention =>
    if msg.intervener_id = some self.intervener_id then
      Except.ok ⟨msg, Option.none, false⟩
    else
      -- `if msg.get('_intervener_id', None) is not None: warnings.warn(...)`
      let warned := msg.intervener_id.isSome
      -- `msg['_intervener_id'] = self._intervener_id`
      let stamped : Message := { msg with intervener_id := some self.intervener_id }
      -- `new_msg = msg.copy()` (shallow copy, taken after the stamp)
      let new_msg : Message := stamped
      -- `msg['name'] = msg['name'] + "__CF"`
      let renamed : Message := { stamped with name := stamped.name ++ "__CF" }
      match intervention with
      | Interv.null =>
        -- `intervention = msg['fn']`, then the Distribution branch
        Except.ok ⟨{ renamed with done := false
                                  value := Option.none
                                  is_observed := false
                                  fn := renamed.fn }, some new_msg, warned⟩
      | Interv.dist d =>
        Except.ok ⟨{ renamed with done := false
                                  value := Option.none
                                  is_observed := false
                                  fn := d }, some new_msg, warned⟩
      | Interv.num n =>
        -- `intervention = torch.tensor(float(intervention))`
        Except.ok ⟨{ renamed with value := some [n]
                                  fn := Delta [n] renamed.fn.event_shape.length
                                  is_observed := true }, some new_msg, warned⟩
      | Interv.tensor t =>
        Except.ok ⟨{ renamed with value := some t
                                  fn := Delta t renamed.fn.event_shape.length
                                  is_observed := true }, some new_msg, warned⟩
      | Interv.unsupported ty =>
        -- `raise NotImplementedError(...)`: msg was mutated in place
        Except.error ⟨ty, renamed, some new_msg, warned⟩

/-- Errors escaping the Stack Applier: a `NotImplementedError` propagated
unchanged from a hook, or exhaustion of the recursion fuel bound. -/
inductive RunErr where
  | notImplemented (e : HookErr)
  | outOfFuel
deriving DecidableEq

/-- Modelled from the spec: the primitive-execution step of the Stack
Applier (`apply_stack` lives in `pyro/poutine/runtime.py`, which is not
part of the sources here).  Per §4.2, if no hook short-circuited, the
primitive resolves the message: a message that is already `done` is left
alone; one whose `value` was pre-supplied (e.g. an observed site) is
marked `done`; otherwise a fresh draw from the message's distribution is
taken, with the randomness source abstracted as the function `draw`. -/
def default_process_message (draw : Dist → List ℚ) (m : Message) : Message :=
  if m.done then m
  else match m.value with
    | some _ => { m with done := true }
    | Option.none => { m with value := some (draw m.fn)
                              done := true }

/-- Modelled from the spec: the two-phase Stack Applier protocol of §4.2
(`apply_stack` of `pyro/poutine/runtime.py` is not part of the sources
here), specialised to stacks of Intervention Messengers.  `full` is the
process-wide stack snapshot a re-entrant fork call traverses from the
top; the `List DoMessenger` argument is the part of the stack the
downward phase (innermost first) still has to visit.  Each hook may fork
a copy, which re-enters the Applier on the full stack and contributes
its resolved message as its own independent site; a hook that sets
`done` short-circuits the downward phase and skips the primitive.  The
result is the resolved message, the list of extra sites produced by
forks (in completion order), and the number of warnings emitted.  Fuel
bounds the re-entrant recursion; §5's synchronous completion of forks is
the recursive call finishing before the traversal resumes. -/
def apply_stack_go (draw : Dist → List ℚ) (full : List DoMessenger) :
    ℕ → List DoMessenger → Message → Except RunErr (Message × List Message × ℕ)
  | 0, _, _ => Except.error RunErr.outOfFuel
  | _ + 1, [], m => Except.ok (default_process_message draw m, [], 0)
  | fuel + 1, dm :: rest, m =>
    match pyro_sample dm m with
    | Except.error e => Except.error (RunErr.notImplemented e)
    | Except.ok out =>
      let w1 : ℕ := if out.warned then 1 else 0
      match out.fork with
      | Option.none =>
        if out.msg.done then Except.ok (out.msg, [], w1)
        else
          match apply_stack_go draw full fuel rest out.msg with
          | Except.error e => Except.error e
          | Except.ok (m2, tr2, w2) => Except.ok (m2, tr2, w1 + w2)
      | some f =>
        match apply_stack_go draw full fuel full f with
        | Except.error e => Except.error e
        | Except.ok (fm, ftr, fw) =>
          if out.msg.done then Except.ok (out.msg, ftr ++ [fm], w1 + fw)
          else
            match apply_stack_go draw full fuel rest out.msg with
            | Except.error e => Except.error e
            | Except.ok (m2, tr2, w2) =>
              Except.ok (m2, ftr ++ [fm] ++ tr2, w1 + fw + w2)

/-- Modelled from the spec: one full Stack Applier run on a fresh
message (§4.2), returning every site it resolves — fork-produced sites
first, then the message itself — together with the warning count. -/
def apply_stack (draw : Dist → List ℚ) (stack : List DoMessenger) (fuel : ℕ)
    (m : Message) : Except RunErr (List Message × ℕ) :=
  match apply_stack_go draw stack fuel stack m with
  | Except.error e => Except.error e
  | Except.ok (mfin, tr, w) => Except.ok (tr ++ [mfin], w)

/-! Helper lemmas: one equation per branch of `_pyro_sample`. -/

/-- If the site name is not a key of `data`, or the message already
carries this instance's stamp, the hook returns with no mutation, no
fork and no warning. -/
theorem pyro_sample_skip (self : DoMessenger) (m : Message)
    (h : dict_get self.data m.name = Option.none ∨
         m.intervener_id = some self.intervener_id) :
    pyro_sample self m = Except.ok ⟨m, Option.none, false⟩ := by
  rcases h with h | h
  · simp only [pyro_sample, h]
  · cases hd : dict_get self.data m.name with
    | none => simp only [pyro_sample, hd]
    | some v => simp only [pyro_sample, hd, if_pos h]

/-- Equation for the `None` intervention branch (posterior-predictive
mode): the site is renamed, un-done, its value cleared, unobserved, and
its distribution left as the original one. -/
theorem pyro_sample_null_eq (self : DoMessenger) (m : Message)
    (hv : dict_get self.data m.name = some Interv.null)
    (hid : m.intervener_id ≠ some self.intervener_id) :
    pyro_sample self m =
      Except.ok ⟨{ m with name := m.name ++ "__CF"
                          intervener_id := some self.intervener_id
                          done := false
                          value := Option.none
                          is_observed := false },
        some { m with intervener_id := some self.intervener_id },
        m.intervener_id.isSome⟩ := by
  simp only [pyro_sample, hv, if_neg hid]

/-- Equation for the `Distribution` intervention branch. -/
theorem pyro_sample_dist_eq (self : DoMessenger) (m : Message) (d : Dist)
    (hv : dict_get self.data m.name = some (Interv.dist d))
    (hid : m.intervener_id ≠ some self.intervener_id) :
    pyro_sample self m =
      Except.ok ⟨{ m with name := m.name ++ "__CF"
                          intervener_id := some self.intervener_id
                          done := false
                          value := Option.none
                          is_observed := false
                          fn := d },
        some { m with intervener_id := some self.intervener_id },
        m.intervener_id.isSome⟩ := by
  simp only [pyro_sample, hv, if_neg hid]

/-- Equation for the `numbers.Number` intervention branch. -/
theorem pyro_sample_num_eq (self : DoMessenger) (m : Message) (n : ℚ)
    (hv : dict_get self.data m.name = some (Interv.num n))
    (hid : m.intervener_id ≠ some self.intervener_id) :
    pyro_sample self m =
      Except.ok ⟨{ m with name := m.name ++ "__CF"
                          intervener_id := some self.intervener_id
                          value := some [n]
                          fn := Delta [n] m.fn.event_shape.length
                          is_observed := true },
        some { m with intervener_id := some self.intervener_id },
        m.intervener_id.isSome⟩ := by
  simp only [pyro_sample, hv, if_neg hid]

/-- Equation for the `torch.Tensor` intervention branch. -/
theorem pyro_sample_tensor_eq (self : DoMessenger) (m : Message) (t : List ℚ)
    (hv : dict_get self.data m.name = some (Interv.tensor t))
    (hid : m.intervener_id ≠ some self.intervener_id) :
    pyro_sample self m =
      Except.ok ⟨{ m with name := m.name ++ "__CF"
                          intervener_id := some self.intervener_id
                          value := some t
                          fn := Delta t m.fn.event_shape.length
                          is_observed := true },
        some { m with intervener_id := some self.intervener_id },
        m.intervener_id.isSome⟩ := by
  simp only [pyro_sample, hv, if_neg hid]

/-- Equation for the unsupported-type branch: `NotImplementedError`, with
the message already stamped and renamed when the error propagates. -/
theorem pyro_sample_unsupported_eq (self : DoMessenger) (m : Message)
    (ty : String)
    (hv : dict_get self.data m.name = some (Interv.unsupported ty))
    (hid : m.intervener_id ≠ some self.intervener_id) :
    pyro_sample self m =
      Except.error ⟨ty,
        { m with name := m.name ++ "__CF"
                 intervener_id := some self.intervener_id },
        some { m with intervener_id := some self.intervener_id },
        m.intervener_id.isSome⟩ := by
  simp only [pyro_sample, hv, if_neg hid]

/-- Any fork the hook hands to the Stack Applier is the shallow copy of
the message taken after the stamp was written. -/
theorem pyro_sample_fork_stamped (self : DoMessenger) (m : Message)
    (out : HookOut) (h : pyro_sample self m = Except.ok out) :
    out.fork = Option.none ∨
    out.fork = some { m with intervener_id := some self.intervener_id } := by
  cases hd : dict_get self.data m.name with
  | none =>
    simp only [pyro_sample, hd, Except.ok.injEq] at h
    subst h; left; rfl
  | some v =>
    by_cases hskip : m.intervener_id = some self.intervener_id
    · simp only [pyro_sample, hd, if_pos hskip, Except.ok.injEq] at h
      subst h; left; rfl
    · cases v with
      | null =>
        rw [pyro_sample_null_eq self m hd hskip, Except.ok.injEq] at h
        subst h; right; rfl
      | dist d =>
        rw [pyro_sample_dist_eq self m d hd hskip, Except.ok.injEq] at h
        subst h; right; rfl
      | num n =>
        rw [pyro_sample_num_eq self m n hd hskip, Except.ok.injEq] at h
        subst h; right; rfl
      | tensor t =>
        rw [pyro_sample_tensor_eq self m t hd hskip, Except.ok.injEq] at h
        subst h; right; rfl
      | unsupported ty =>
        rw [pyro_sample_unsupported_eq self m ty hd hskip] at h
        simp at h

/-- C2: for every intervened sample message (name in the mapping, not
self-stamped), the hook returns with the message's name equal to the
original name with the suffix appended, for every supported intervention
kind (None, distribution, number, tensor). -/
theorem intervened_site_renamed (self : DoMessenger) (m : Message) (v : Interv)
    (hv : dict_get self.data m.name = some v) (hs : v.supported = true)
    (hid : m.intervener_id ≠ some self.intervener_id) :
    ∃ out, pyro_sample self m = Except.ok out ∧
      out.msg.name = m.name ++ "__CF" := by
  cases v with
  | null => exact ⟨_, pyro_sample_null_eq self m hv hid, rfl⟩
  | dist d => exact ⟨_, pyro_sample_dist_eq self m d hv hid, rfl⟩
  | num n => exact ⟨_, pyro_sample_num_eq self m n hv hid, rfl⟩
  | tensor t => exact ⟨_, pyro_sample_tensor_eq self m t hv hid, rfl⟩
  | unsupported ty => simp [Interv.supported] at hs

/-- C3: intervening with a Distribution D — or with None, in which case
D is the message's own current distribution — sets done to false, clears
the value, unobserves the site, and installs D as the distribution. -/
theorem dist_intervention_substitutes (self : DoMessenger) (m : Message)
    (D : Dist)
    (hv : dict_get self.data m.name = some (Interv.dist D) ∨
          (dict_get self.data m.name = some Interv.null ∧ D = m.fn))
    (hid : m.intervener_id ≠ some self.intervener_id) :
    ∃ out, pyro_sample self m = Except.ok out ∧
      out.msg.done = false ∧ out.msg.value = Option.none ∧
      out.msg.is_observed = false ∧ out.msg.fn = D := by
  rcases hv with hv | ⟨hv, rfl⟩
  · exact ⟨_, pyro_sample_dist_eq self m D hv hid, rfl, rfl, rfl, rfl⟩
  · exact ⟨_, pyro_sample_null_eq self m hv hid, rfl, rfl, rfl, rfl⟩

/-- C4: intervening with a number n (coerced to the one-element tensor
[n]) or with a tensor t sets the value to that tensor, installs a Delta
point mass at it whose event_dim is the length of the original
distribution's event_shape, and marks the site observed. -/
theorem value_intervention_delta (self : DoMessenger) (m : Message)
    (t : List ℚ)
    (hv : (∃ n : ℚ, dict_get self.data m.name = some (Interv.num n) ∧
            t = [n]) ∨
          dict_get self.data m.name = some (Interv.tensor t))
    (hid : m.intervener_id ≠ some self.intervener_id) :
    ∃ out, pyro_sample self m = Except.ok out ∧
      out.msg.value = some t ∧
      out.msg.fn = Delta t m.fn.event_shape.length ∧
      out.msg.is_observed = true := by
  rcases hv with ⟨n, hv, rfl⟩ | hv
  · exact ⟨_, pyro_sample_num_eq self m n hv hid, rfl, rfl, rfl⟩
  · exact ⟨_, pyro_sample_tensor_eq self m t hv hid, rfl, rfl, rfl⟩

/-- C5: intervening with the scalar 2 and intervening with the
one-element tensor [2] yield the same value and observed status on the
processed message. -/
theorem scalar_tensor_equivalent (d1 d2 : DoMessenger) (m : Message)
    (h1 : dict_get d1.data m.name = some (Interv.num 2))
    (h2 : dict_get d2.data m.name = some (Interv.tensor [2]))
    (hid1 : m.intervener_id ≠ some d1.intervener_id)
    (hid2 : m.intervener_id ≠ some d2.intervener_id) :
    ∃ o1 o2, pyro_sample d1 m = Except.ok o1 ∧
      pyro_sample d2 m = Except.ok o2 ∧
      o1.msg.value = o2.msg.value ∧
      o1.msg.is_observed = o2.msg.is_observed :=
  ⟨_, _, pyro_sample_num_eq d1 m 2 h1 hid1,
    pyro_sample_tensor_eq d2 m [2] h2 hid2, rfl, rfl⟩

/-- C7: a message already stamped by a different instance is warned
about exactly once, then processed anyway: the stamp is overwritten with
this instance's identity and the intervention is applied (the site is
renamed). -/
theorem duplicate_intervention_warns (self : DoMessenger) (m : Message)
    (other : String) (v : Interv)
    (ho : m.intervener_id = some other) (hne : other ≠ self.intervener_id)
    (hv : dict_get self.data m.name = some v) (hs : v.supported = true) :
    ∃ out, pyro_sample self m = Except.ok out ∧ out.warned = true ∧
      out.msg.intervener_id = some self.intervener_id ∧
      out.msg.name = m.name ++ "__CF" := by
  have hid : m.intervener_id ≠ some self.intervener_id := by
    rw [ho]; intro hc; injection hc with hc; exact hne hc
  cases v with
  | null => exact ⟨_, pyro_sample_null_eq self m hv hid, by simp [ho], rfl, rfl⟩
  | dist d => exact ⟨_, pyro_sample_dist_eq self m d hv hid, by simp [ho], rfl, rfl⟩
  | num n => exact ⟨_, pyro_sample_num_eq self m n hv hid, by simp [ho], rfl, rfl⟩
  | tensor t => exact ⟨_, pyro_sample_tensor_eq self m t hv hid, by simp [ho], rfl, rfl⟩
  | unsupported ty => simp [Interv.supported] at hs

/-- C8: for a message whose name is not in the mapping, or which already
carries this instance's stamp, the hook returns the message with every
field unchanged, produces no fork and emits no warning. -/
theorem noop_leaves_message_unchanged (self : DoMessenger) (m : Message)
    (h : dict_get self.data m.name = Option.none ∨
         m.intervener_id = some self.intervener_id) :
    pyro_sample self m = Except.ok ⟨m, Option.none, false⟩ :=
  pyro_sample_skip self m h

/-- C10: the stamp is written before the shallow copy, so any fork the
hook produces already carries this instance's identity, and re-running
this instance's hook on the fork takes the skip branch (no further fork:
the self-recursion depth through the applier is at most one). -/
theorem fork_self_stamped_skips (self : DoMessenger) (m : Message)
    (out : HookOut) (f : Message)
    (h : pyro_sample self m = Except.ok out) (hf : out.fork = some f) :
    f.intervener_id = some self.intervener_id ∧
    pyro_sample self f = Except.ok ⟨f, Option.none, false⟩ := by
  rcases pyro_sample_fork_stamped self m out h with hn | hs
  · rw [hn] at hf; cases hf
  · rw [hs] at hf
    injection hf with h2
    subst h2
    exact ⟨rfl, pyro_sample_skip self _ (Or.inr rfl)⟩

/-- C6 counterexample: with the string intervention at site "z", the
hook does raise, but the message state carried out by the error is not
the original message — it has already been renamed and stamped, so the
mutation precedes the raise. -/
theorem unsupported_mutation_cex :
    pyro_sample ⟨[("z", Interv.unsupported "str")], "a"⟩
      ⟨"z", Dist.prim "Normal" [], Option.none, false, false, Option.none⟩ =
    Except.error ⟨"str",
      ⟨"z__CF", Dist.prim "Normal" [], Option.none, false, false, some "a"⟩,
      some ⟨"z", Dist.prim "Normal" [], Option.none, false, false, some "a"⟩,
      false⟩ ∧
    (⟨"z__CF", Dist.prim "Normal" [], Option.none, false, false, some "a"⟩ :
      Message) ≠
    ⟨"z", Dist.prim "Normal" [], Option.none, false, false, Option.none⟩ :=
  ⟨rfl, by decide⟩

/-- C6 (amended): an intervention value of unsupported type raises the
error synchronously, but only after the message has been stamped with
this instance's identity, the factual copy forked, and the name
mangled; the value, distribution, done and is_observed fields are
unchanged when the error propagates. -/
theorem unsupported_raises_after_rename (self : DoMessenger) (m : Message)
    (ty : String)
    (hv : dict_get self.data m.name = some (Interv.unsupported ty))
    (hid : m.intervener_id ≠ some self.intervener_id) :
    ∃ e : HookErr, pyro_sample self m = Except.error e ∧
      e.tyname = ty ∧
      e.state.msg.name = m.name ++ "__CF" ∧
      e.state.msg.intervener_id = some self.intervener_id ∧
      e.state.fork = some { m with intervener_id := some self.intervener_id } ∧
      e.state.msg.value = m.value ∧
      e.state.msg.fn = m.fn ∧
      e.state.msg.done = m.done ∧
      e.state.msg.is_observed = m.is_observed :=
  ⟨_, pyro_sample_unsupported_eq self m ty hv hid,
    rfl, rfl, rfl, rfl, rfl, rfl, rfl, rfl⟩

/-- C9 counterexample: a message that enters the hook with done = true
and a resolved value has that value overwritten by a tensor
intervention, so the hook does not respect the done barrier on
intervened sites. -/
theorem done_value_overwritten_cex :
    (⟨"z", Dist.prim "Normal" [], some [5], false, true, Option.none⟩ :
      Message).done = true ∧
    pyro_sample ⟨[("z", Interv.tensor [3])], "b"⟩
      ⟨"z", Dist.prim "Normal" [], some [5], false, true, Option.none⟩ =
    Except.ok ⟨⟨"z__CF", Dist.delta [3] 0, some [3], true, true, some "b"⟩,
      some ⟨"z", Dist.prim "Normal" [], some [5], false, true, some "b"⟩,
      false⟩ ∧
    some ([3] : List ℚ) ≠ some ([5] : List ℚ) :=
  ⟨rfl, rfl, by decide⟩

/-- C9 (amended): a message entering the hook with done = true keeps its
value provided the hook does not intervene on it (its name is not in
the mapping, or it already carries this instance's stamp); intervened
messages have their value overwritten regardless of done. -/
theorem done_value_preserved_when_skipped (self : DoMessenger) (m : Message)
    (_hdone : m.done = true)
    (h : dict_get self.data m.name = Option.none ∨
         m.intervener_id = some self.intervener_id) :
    ∃ out, pyro_sample self m = Except.ok out ∧ out.msg.value = m.value :=
  ⟨_, pyro_sample_skip self m h, rfl⟩

/-- C1: running the Stack Applier on a stack holding this intervention
messenger with a fresh sample message whose name maps to the numeric
intervention q yields exactly two sites: the factual site under the
original name, resolved by a fresh draw from the original distribution,
and the intervened site under the mangled name carrying the intervention
value with is_observed = true. -/
theorem do_forks_factual_and_counterfactual (dm : DoMessenger)
    (draw : Dist → List ℚ) (m : Message) (q : ℚ) (F : ℕ)
    (hv : dict_get dm.data m.name = some (Interv.num q))
    (hdone : m.done = false) (hval : m.value = Option.none)
    (hid : m.intervener_id = Option.none) :
    apply_stack draw [dm] (F + 3) m =
      Except.ok ([{ m with value := some (draw m.fn)
                           done := true
                           intervener_id := some dm.intervener_id },
                  { m with name := m.name ++ "__CF"
                           intervener_id := some dm.intervener_id
                           value := some [q]
                           fn := Delta [q] m.fn.event_shape.length
                           is_observed := true
                           done := true }], 0) := by
  have hid' : m.intervener_id ≠ some dm.intervener_id := by rw [hid]; simp
  have h1 := pyro_sample_num_eq dm m q hv hid'
  have hskipF : pyro_sample dm { m with intervener_id := some dm.intervener_id }
      = Except.ok ⟨{ m with intervener_id := some dm.intervener_id },
                   Option.none, false⟩ :=
    pyro_sample_skip dm _ (Or.inr rfl)
  simp only [hid, hdone, hval] at h1 hskipF
  simp [apply_stack, apply_stack_go, h1, hskipF, hid, hdone, hval,
    default_process_message]

/-! Witnesses: each claim theorem evaluated at a concrete input. -/

/-- Witness for C1 at site "z", intervention 2, draw always [7]. -/
theorem do_forks_factual_and_counterfactual_witness :
    apply_stack (fun _ => [7]) [⟨[("z", Interv.num 2)], "a"⟩] 3
      ⟨"z", Dist.prim "Normal" [], Option.none, false, false, Option.none⟩ =
    Except.ok ([⟨"z", Dist.prim "Normal" [], some [7], false, true, some "a"⟩,
                ⟨"z__CF", Dist.delta [2] 0, some [2], true, true, some "a"⟩],
               0) :=
  do_forks_factual_and_counterfactual ⟨[("z", Interv.num 2)], "a"⟩
    (fun _ => [7])
    ⟨"z", Dist.prim "Normal" [], Option.none, false, false, Option.none⟩
    2 0 (by decide) rfl rfl rfl

/-- Witness for C2 with the None intervention at site "z". -/
theorem intervened_site_renamed_witness :
    ∃ out, pyro_sample ⟨[("z", Interv.null)], "a"⟩
        ⟨"z", Dist.prim "Normal" [], Option.none, false, false, Option.none⟩ =
      Except.ok out ∧ out.msg.name = "z" ++ "__CF" :=
  intervened_site_renamed ⟨[("z", Interv.null)], "a"⟩
    ⟨"z", Dist.prim "Normal" [], Option.none, false, false, Option.none⟩
    Interv.null (by decide) (by decide) (by decide)

/-- Witness for C3 with an Exponential intervention on a Normal site. -/
theorem dist_intervention_substitutes_witness :
    ∃ out, pyro_sample ⟨[("z", Interv.dist (Dist.prim "Exponential" []))], "a"⟩
        ⟨"z", Dist.prim "Normal" [], Option.none, false, false, Option.none⟩ =
      Except.ok out ∧ out.msg.done = false ∧ out.msg.value = Option.none ∧
      out.msg.is_observed = false ∧ out.msg.fn = Dist.prim "Exponential" [] :=
  dist_intervention_substitutes ⟨[("z", Interv.dist (Dist.prim "Exponential" []))], "a"⟩
    ⟨"z", Dist.prim "Normal" [], Option.none, false, false, Option.none⟩
    (Dist.prim "Exponential" []) (Or.inl (by decide)) (by decide)

/-- Witness for C4 with the numeric intervention 2. -/
theorem value_intervention_delta_witness :
    ∃ out, pyro_sample ⟨[("z", Interv.num 2)], "a"⟩
        ⟨"z", Dist.prim "Normal" [], Option.none, false, false, Option.none⟩ =
      Except.ok out ∧ out.msg.value = some [2] ∧
      out.msg.fn = Dist.delta [2] 0 ∧
      out.msg.is_observed = true :=
  value_intervention_delta ⟨[("z", Interv.num 2)], "a"⟩
    ⟨"z", Dist.prim "Normal" [], Option.none, false, false, Option.none⟩
    [2] (Or.inl ⟨2, by decide, rfl⟩) (by decide)

/-- Witness for C5: scalar 2 versus tensor [2] at site "z". -/
theorem scalar_tensor_equivalent_witness :
    ∃ o1 o2, pyro_sample ⟨[("z", Interv.num 2)], "a"⟩
        ⟨"z", Dist.prim "Normal" [], Option.none, false, false, Option.none⟩ =
      Except.ok o1 ∧
      pyro_sample ⟨[("z", Interv.tensor [2])], "b"⟩
        ⟨"z", Dist.prim "Normal" [], Option.none, false, false, Option.none⟩ =
      Except.ok o2 ∧
      o1.msg.value = o2.msg.value ∧
      o1.msg.is_observed = o2.msg.is_observed :=
  scalar_tensor_equivalent ⟨[("z", Interv.num 2)], "a"⟩
    ⟨[("z", Interv.tensor [2])], "b"⟩
    ⟨"z", Dist.prim "Normal" [], Option.none, false, false, Option.none⟩
    (by decide) (by decide) (by decide) (by decide)

/-- Witness for C6 (amended) with a string intervention on a resolved
observed site. -/
theorem unsupported_raises_after_rename_witness :
    ∃ e : HookErr, pyro_sample ⟨[("z", Interv.unsupported "str")], "a"⟩
        ⟨"z", Dist.prim "Normal" [], some [9], true, true, Option.none⟩ =
      Except.error e ∧ e.tyname = "str" ∧
      e.state.msg.name = "z" ++ "__CF" ∧
      e.state.msg.intervener_id = some "a" ∧
      e.state.fork = some ⟨"z", Dist.prim "Normal" [], some [9], true, true,
        some "a"⟩ ∧
      e.state.msg.value = some [9] ∧
      e.state.msg.fn = Dist.prim "Normal" [] ∧
      e.state.msg.done = true ∧
      e.state.msg.is_observed = true :=
  unsupported_raises_after_rename ⟨[("z", Interv.unsupported "str")], "a"⟩
    ⟨"z", Dist.prim "Normal" [], some [9], true, true, Option.none⟩
    "str" (by decide) (by decide)

/-- Witness for C7: a site stamped by instance "b" processed by
instance "a". -/
theorem duplicate_intervention_warns_witness :
    ∃ out, pyro_sample ⟨[("z", Interv.num 2)], "a"⟩
        ⟨"z", Dist.prim "Normal" [], Option.none, false, false, some "b"⟩ =
      Except.ok out ∧ out.warned = true ∧
      out.msg.intervener_id = some "a" ∧ out.msg.name = "z" ++ "__CF" :=
  duplicate_intervention_warns ⟨[("z", Interv.num 2)], "a"⟩
    ⟨"z", Dist.prim "Normal" [], Option.none, false, false, some "b"⟩
    "b" (Interv.num 2) rfl (by decide) (by decide) rfl

/-- Witness for C8: a site "x" not in the mapping is untouched. -/
theorem noop_leaves_message_unchanged_witness :
    pyro_sample ⟨[("z", Interv.num 2)], "a"⟩
      ⟨"x", Dist.prim "Normal" [], Option.none, false, false, Option.none⟩ =
    Except.ok ⟨⟨"x", Dist.prim "Normal" [], Option.none, false, false,
      Option.none⟩, Option.none, false⟩ :=
  noop_leaves_message_unchanged ⟨[("z", Interv.num 2)], "a"⟩
    ⟨"x", Dist.prim "Normal" [], Option.none, false, false, Option.none⟩
    (Or.inl (by decide))

/-- Witness for C9 (amended): a done site not in the mapping keeps its
value. -/
theorem done_value_preserved_when_skipped_witness :
    ∃ out, pyro_sample ⟨[("z", Interv.num 2)], "a"⟩
        ⟨"x", Dist.prim "Normal" [], some [4], false, true, Option.none⟩ =
      Except.ok out ∧ out.msg.value = some [4] :=
  done_value_preserved_when_skipped ⟨[("z", Interv.num 2)], "a"⟩
    ⟨"x", Dist.prim "Normal" [], some [4], false, true, Option.none⟩
    rfl (Or.inl (by decide))

/-- Witness for C10: the fork produced at site "z" is skipped on
re-entry. -/
theorem fork_self_stamped_skips_witness :
    (⟨"z", Dist.prim "Normal" [], Option.none, false, false, some "a"⟩ :
      Message).intervener_id = some "a" ∧
    pyro_sample ⟨[("z", Interv.num 2)], "a"⟩
      ⟨"z", Dist.prim "Normal" [], Option.none, false, false, some "a"⟩ =
    Except.ok ⟨⟨"z", Dist.prim "Normal" [], Option.none, false, false,
      some "a"⟩, Option.none, false⟩ :=
  fork_self_stamped_skips ⟨[("z", Interv.num 2)], "a"⟩
    ⟨"z", Dist.prim "Normal" [], Option.none, false, false, Option.none⟩
    ⟨⟨"z__CF", Dist.delta [2] 0, some [2], true, false, some "a"⟩,
      some ⟨"z", Dist.prim "Normal" [], Option.none, false, false, some "a"⟩,
      false⟩
    ⟨"z", Dist.prim "Normal" [], Option.none, false, false, some "a"⟩
    rfl rfl

end Pyro
